import Mathlib

/-!
Shallow embedding of `src/client/src/pages/home.tsx` (the MaturaGrade
single-page client).  The component's React state (`text`, `isGrading`,
`isWritingMode`, `result`) becomes a `Session` record; the event handlers
(`handleGrade`, `handleReset`, `enterWritingMode`, the textarea `onChange`
handlers that call `setText`) become a `step` function on a `Model` that
additionally tracks the outstanding simulated grading requests (the
continuations of `handleGrade` suspended at its `await`) and a counter of
dispatched requests.  TypeScript `number` fields (all used as integers)
are embedded as `Int`.  Share/clipboard state (`copied`) is omitted: no
claim concerns it and it is written by no handler modelled here.
-/

namespace MaturaGrade

/-- The four boolean disqualification reasons of `criteria.formalRequirements.reasons`. -/
structure Reasons where
  cardinalError : Bool
  missingReading : Bool
  irrelevant : Bool
  notArgumentative : Bool
deriving DecidableEq, Repr

/-- `criteria.formalRequirements` of the `GradingResult` interface (points commented `// 0 or 1`). -/
structure FormalRequirements where
  points : Int
  reasons : Reasons
deriving DecidableEq, Repr

/-- `criteria.literaryCompetencies` (points commented `// 0-16`). -/
structure LiteraryCompetencies where
  points : Int
  factualErrors : Int
deriving DecidableEq, Repr

/-- `criteria.structure` (points commented `// 0-3`). -/
structure StructureCriterion where
  points : Int
deriving DecidableEq, Repr

/-- `criteria.coherence` (points commented `// 0-3`). -/
structure Coherence where
  points : Int
  coherenceErrors : Int
deriving DecidableEq, Repr

/-- `criteria.style` (points commented `// 0-1`). -/
structure Style where
  points : Int
deriving DecidableEq, Repr

/-- `criteria.language` (points commented `// 0-7`). -/
structure Language where
  points : Int
  languageErrors : Int
deriving DecidableEq, Repr

/-- `criteria.spelling` (points commented `// 0-2`). -/
structure Spelling where
  points : Int
  spellingErrors : Int
deriving DecidableEq, Repr

/-- `criteria.punctuation` (points commented `// 0-2`). -/
structure Punctuation where
  points : Int
  punctuationErrors : Int
deriving DecidableEq, Repr

/-- The `criteria` field of the `GradingResult` interface: exactly the eight
fixed criteria, all present (presence is structural in this embedding). -/
structure Criteria where
  formalRequirements : FormalRequirements
  literaryCompetencies : LiteraryCompetencies
  «structure» : StructureCriterion
  coherence : Coherence
  style : Style
  language : Language
  spelling : Spelling
  punctuation : Punctuation
deriving DecidableEq, Repr

/-- The `GradingResult` interface of `home.tsx`. -/
structure GradingResult where
  totalScore : Int
  maxTotalScore : Int
  criteria : Criteria
  feedback : String
  errors : List String
  suggestions : List String
deriving DecidableEq, Repr

/-- The literal `GradingResult` object that `handleGrade` passes to
`setResult` after the simulated API call (`await new Promise(... 2500)`).
It is a fixed constant in the source; the submitted text does not occur in it. -/
def simulatedResult : GradingResult where
  totalScore := 35
  maxTotalScore := 50
  criteria :=
    { formalRequirements :=
        { points := 1
          reasons :=
            { cardinalError := false
              missingReading := false
              irrelevant := false
              notArgumentative := false } }
      literaryCompetencies := { points := 11, factualErrors := 1 }
      «structure» := { points := 3 }
      coherence := { points := 2, coherenceErrors := 2 }
      style := { points := 1 }
      language := { points := 5, languageErrors := 4 }
      spelling := { points := 2, spellingErrors := 0 }
      punctuation := { points := 1, punctuationErrors := 3 } }
  feedback := "Dobra praca z kilkoma błędami stylistycznymi. Argumentacja jest spójna, ale brakuje głębszego odwołania do literatury przedmiotu. Zwróć uwagę na interpunkcję w zdaniach wielokrotnie złożonych."
  errors :=
    [ "Powtórzenie w akapicie 2: 'jest to'"
    , "Błąd interpunkcyjny w zdaniu podrzędnym"
    , "Zbyt potoczne sformułowanie: 'fajna sprawa'"
    , "Błąd rzeczowy: Wokulski nie był pozytywistą w pełnym tego słowa znaczeniu" ]
  suggestions :=
    [ "Rozbuduj wstęp o kontekst historyczny"
    , "Użyj bardziej zróżnicowanego słownictwa (synonimy)"
    , "Dodaj cytat potwierdzający tezę z 'Lalki'"
    , "Przećwicz stosowanie przecinków przed spójnikami" ]

/-- The grading outcome as a function of the submitted text snapshot: the
continuation of `handleGrade` ignores its snapshot and always produces
`simulatedResult`. -/
def simulatedGrade : String → GradingResult := fun _ => simulatedResult

/-- JavaScript `String.prototype.trim`, used by `handleGrade`'s guard
(`!text.trim()`): drop leading and trailing whitespace.  Defined on the
character list so that it evaluates by kernel reduction. -/
def jsTrim (s : String) : String :=
  ⟨((s.data.dropWhile Char.isWhitespace).reverse.dropWhile Char.isWhitespace).reverse⟩

/-- The component's React state relevant to the claims:
`useState` hooks `text`, `isGrading`, `isWritingMode`, `result`. -/
structure Session where
  text : String
  isGrading : Bool
  isWritingMode : Bool
  result : Option GradingResult
deriving DecidableEq, Repr

/-- A session together with the outstanding simulated grading requests
(the text snapshots handed to dispatched `handleGrade` continuations, in
dispatch order) and the total number of requests dispatched so far. -/
structure Model where
  session : Session
  pending : List String
  dispatched : Nat
deriving DecidableEq, Repr

/-- The initial component state: all `useState` initialisers
(`""`, `false`, `false`, `null`); nothing dispatched. -/
def init : Model where
  session := { text := "", isGrading := false, isWritingMode := false, result := none }
  pending := []
  dispatched := 0

/-- The user- and collaborator-triggered events the embedded handlers serve.
`setText` covers both textarea `onChange` handlers and the file-drop reader
callback (each calls `setText` unconditionally); `handleGradeSync` is the
synchronous prefix of `handleGrade` up to its `await`; `gradeResponse` is
the resumption of the oldest outstanding continuation after the await. -/
inductive Event where
  | setText (s : String)
  | handleGradeSync
  | gradeResponse
  | handleReset
  | enterWritingMode
  | exitWritingMode
deriving DecidableEq, Repr

/-- One event processed by the component, as the handlers in `home.tsx` do:
* `setText s` — `setText(e.target.value)` / `setText(content)`: replaces `text`, nothing else;
* `handleGradeSync` — `handleGrade` up to the `await`: if `!text.trim()`
  only a toast fires (no state change, nothing dispatched); otherwise
  `if (isWritingMode) setIsWritingMode(false)`, `setIsGrading(true)`,
  `setResult(null)` and the simulated request is dispatched with the
  current `text` snapshot;
* `gradeResponse` — the continuation after the `await`:
  `setResult({...})` with the fixed object and `setIsGrading(false)`;
  the source has no request id, no staleness check and no guard, so the
  continuation runs whenever one is outstanding;
* `handleReset` — `setText("")`, `setResult(null)` (outstanding requests
  are not cancelled);
* `enterWritingMode` — `if (!text) setText(" ")`, `setIsWritingMode(true)`;
* `exitWritingMode` — `setIsWritingMode(false)`. -/
def step (m : Model) : Event → Model
  | .setText s => { m with session := { m.session with text := s } }
  | .handleGradeSync =>
      if jsTrim m.session.text = "" then m
      else
        { session :=
            { m.session with isWritingMode := false, isGrading := true, result := none }
          pending := m.pending ++ [m.session.text]
          dispatched := m.dispatched + 1 }
  | .gradeResponse =>
      match m.pending with
      | [] => m
      | t :: rest =>
          { m with
            session := { m.session with result := some (simulatedGrade t), isGrading := false }
            pending := rest }
  | .handleReset => { m with session := { m.session with text := "", result := none } }
  | .enterWritingMode =>
      { m with
        session :=
          { m.session with
            text := if m.session.text = "" then " " else m.session.text
            isWritingMode := true } }
  | .exitWritingMode => { m with session := { m.session with isWritingMode := false } }

/-- Run a list of events from a model, oldest first. -/
def run (m : Model) : List Event → Model
  | [] => m
  | e :: es => run (step m e) es

/-! ## Rubric Model, from the spec's words

The source has no validator; the following definitions transcribe the
spec's Rubric Model (per-kind `maxPoints` table, `totalScore = Σ points`,
non-negative error counts) so theorems can compare the results produced by
the code against it. -/

/-- The eight fixed criterion kinds of the rubric. -/
inductive CriterionKind where
  | formalRequirements
  | literaryCompetencies
  | structureKind
  | coherence
  | style
  | language
  | spelling
  | punctuation
deriving DecidableEq, Repr

/-- All eight kinds, in rubric order. -/
def allKinds : List CriterionKind :=
  [.formalRequirements, .literaryCompetencies, .structureKind, .coherence,
   .style, .language, .spelling, .punctuation]

/-- The spec's per-kind `maxPoints` table:
{FormalRequirements:1, LiteraryCompetencies:16, Structure:3, Coherence:3,
Style:1, Language:7, Spelling:2, Punctuation:2}. -/
def maxPointsOf : CriterionKind → Int
  | .formalRequirements => 1
  | .literaryCompetencies => 16
  | .structureKind => 3
  | .coherence => 3
  | .style => 1
  | .language => 7
  | .spelling => 2
  | .punctuation => 2

/-- The points a result assigns to a criterion kind. -/
def pointsOf (r : GradingResult) : CriterionKind → Int
  | .formalRequirements => r.criteria.formalRequirements.points
  | .literaryCompetencies => r.criteria.literaryCompetencies.points
  | .structureKind => r.criteria.«structure».points
  | .coherence => r.criteria.coherence.points
  | .style => r.criteria.style.points
  | .language => r.criteria.language.points
  | .spelling => r.criteria.spelling.points
  | .punctuation => r.criteria.punctuation.points

/-- Sum of `points` across all eight criteria. -/
def sumPoints (r : GradingResult) : Int :=
  (allKinds.map (pointsOf r)).sum

/-- Modelled from the spec: `maxTotalScore` as the spec requires it to be
computed — the sum of the per-kind `maxPoints` table (no such computation
exists in `src/`). -/
def maxTotalSpec : Int :=
  (allKinds.map maxPointsOf).sum

/-- Modelled from the spec: the Rubric Model's `validate` (absent from
`src/`) as a boolean acceptance test — every criterion's points in
`[0, maxPoints]` for its kind, every error count non-negative, and
`totalScore = Σ points`.  (Presence of all eight kinds is structural in
this embedding.) -/
def specValidate (r : GradingResult) : Bool :=
  allKinds.all (fun k => decide (0 ≤ pointsOf r k) && decide (pointsOf r k ≤ maxPointsOf k))
    && decide (0 ≤ r.criteria.literaryCompetencies.factualErrors)
    && decide (0 ≤ r.criteria.coherence.coherenceErrors)
    && decide (0 ≤ r.criteria.language.languageErrors)
    && decide (0 ≤ r.criteria.spelling.spellingErrors)
    && decide (0 ≤ r.criteria.punctuation.punctuationErrors)
    && decide (r.totalScore = sumPoints r)

/-! ## Word count

The source displays `text.split(/\s+/).filter(w => w.length > 0).length`.
`splitWsAux` embeds `split(/\s+/)`: the separator is a maximal run of
whitespace, a separator at the start or end of the string contributes an
empty token, and the empty string yields the single token `""`.
`runCountAux` counts maximal non-whitespace runs directly, transcribing
the spec's words, for comparison. -/

/-- `dropWhile` never lengthens a list (used for termination of `splitWsAux`). -/
theorem dropWhile_length_le (p : Char → Bool) (l : List Char) :
    (l.dropWhile p).length ≤ l.length := by
  induction l with
  | nil => simp
  | cons c cs ih =>
    rw [List.dropWhile_cons]
    by_cases h : p c <;> simp [h]
    exact Nat.le_succ_of_le ih

/-- `String.prototype.split(/\s+/)` on a character list: `acc` holds the
(reversed) token read so far; a whitespace character ends the token and the
whole whitespace run is consumed as one separator. -/
def splitWsAux (acc : List Char) : List Char → List (List Char)
  | [] => [acc.reverse]
  | c :: cs =>
      if c.isWhitespace then
        acc.reverse :: splitWsAux [] (cs.dropWhile Char.isWhitespace)
      else
        splitWsAux (c :: acc) cs
termination_by l => l.length
decreasing_by
  · exact Nat.lt_succ_of_le (dropWhile_length_le _ cs)
  · exact Nat.lt_succ_self _

/-- The word counter of `home.tsx`:
`text.split(/\s+/).filter(w => w.length > 0).length`. -/
def wordCount (s : String) : Nat :=
  ((splitWsAux [] s.data).filter (fun w => decide (0 < w.length))).length

/-- Modelled from the spec: count of maximal non-whitespace runs.  The flag
records whether the previous character belonged to a run; a run is counted
at its first character. -/
def runCountAux : Bool → List Char → Nat
  | _, [] => 0
  | inRun, c :: cs =>
      if c.isWhitespace then runCountAux false cs
      else (if inRun then 0 else 1) + runCountAux true cs

/-- Number of maximal non-whitespace runs of a string. -/
def runCount (s : String) : Nat := runCountAux false s.data

/-! ## Helper lemmas -/

/-- The only result any handler ever stores is the fixed `simulatedResult`. -/
theorem step_result_inv (m : Model) (e : Event)
    (h : ∀ r, m.session.result = some r → r = simulatedResult) :
    ∀ r, (step m e).session.result = some r → r = simulatedResult := by
  intro r hr
  cases e with
  | setText s => exact h r hr
  | handleGradeSync =>
    simp only [step] at hr
    split at hr
    · exact h r hr
    · simp at hr
  | gradeResponse =>
    cases hp : m.pending with
    | nil => rw [step, hp] at hr; exact h r hr
    | cons t rest =>
      rw [step, hp] at hr
      simp only [Option.some.injEq] at hr
      exact hr.symm
  | handleReset => simp [step] at hr
  | enterWritingMode => exact h r hr
  | exitWritingMode => exact h r hr

/-- Invariant transport along a run: every stored result is `simulatedResult`. -/
theorem run_result_inv (evs : List Event) (m : Model)
    (h : ∀ r, m.session.result = some r → r = simulatedResult) :
    ∀ r, (run m evs).session.result = some r → r = simulatedResult := by
  induction evs generalizing m with
  | nil => exact h
  | cons e es ih => exact ih (step m e) (step_result_inv m e h)

/-- Skipping a leading whitespace run does not change the number of
maximal non-whitespace runs counted from outside a run. -/
theorem runCountAux_dropWhile (l : List Char) :
    runCountAux false (l.dropWhile Char.isWhitespace) = runCountAux false l := by
  induction l with
  | nil => rfl
  | cons c cs ih =>
    rw [List.dropWhile_cons]
    by_cases h : c.isWhitespace
    · simpa [h, runCountAux] using ih
    · simp [h]

/-- Counting the non-empty tokens of `split(/\s+/)` counts the maximal
non-whitespace runs: the accumulator contributes one token exactly when it
is non-empty, and the flag records whether a run is open. -/
theorem splitWsAux_filter_length (n : Nat) : ∀ l : List Char, l.length ≤ n → ∀ acc,
    ((splitWsAux acc l).filter (fun w => decide (0 < w.length))).length
      = (if acc.isEmpty then 0 else 1) + runCountAux (!acc.isEmpty) l := by
  induction n with
  | zero =>
    intro l hl acc
    rw [Nat.le_zero, List.length_eq_zero] at hl
    subst hl
    cases acc <;> simp [splitWsAux, runCountAux]
  | succ n ih =>
    intro l hl acc
    cases l with
    | nil => cases acc <;> simp [splitWsAux, runCountAux]
    | cons c cs =>
      simp only [List.length_cons, Nat.succ_le_succ_iff] at hl
      by_cases h : c.isWhitespace
      · rw [splitWsAux, if_pos h]
        have hd : (cs.dropWhile Char.isWhitespace).length ≤ n :=
          le_trans (dropWhile_length_le _ cs) hl
        rw [List.filter_cons]
        have hrec := ih (cs.dropWhile Char.isWhitespace) hd []
        simp only [List.isEmpty_nil, if_true, Bool.not_true, Nat.zero_add] at hrec
        cases acc with
        | nil =>
          simp only [List.reverse_nil, List.length_nil, List.isEmpty_nil]
          simp only [decide_eq_true_eq]
          rw [if_neg (by simp)]
          rw [hrec, runCountAux_dropWhile]
          simp [runCountAux, h]
        | cons a as =>
          simp only [decide_eq_true_eq]
          rw [if_pos (by simp)]
          simp only [List.length_cons, List.isEmpty_cons]
          rw [hrec, runCountAux_dropWhile]
          simp [runCountAux, h]
          omega
      · rw [splitWsAux, if_neg h]
        rw [ih cs hl (c :: acc)]
        simp only [List.isEmpty_cons, runCountAux, h]
        cases acc with
        | nil => simp [runCountAux, h]
        | cons a as => simp [runCountAux, h]

/-! ## Claims -/

/-- C1 (corrected), counterexample: after a successful grade the session's
result is the fixed hard-coded object, whose `totalScore` is 35 while its
criterion points sum to 26; the spec's validator rejects it, yet it is the
displayed result. -/
theorem c1_counterexample :
    (run init [.setText "Tezy i argumenty.", .handleGradeSync, .gradeResponse]).session.result
      = some simulatedResult ∧
    simulatedResult.totalScore = 35 ∧ sumPoints simulatedResult = 26 ∧
    specValidate simulatedResult = false :=
  ⟨rfl, by decide, by decide, by decide⟩

/-- C1 (amended): every RubricResult that enters the session is the fixed
hard-coded result; each of its eight criterion point values lies within
`[0, maxPoints]` for its kind, but its `totalScore` does not equal the sum
of the criterion points and the spec's validator rejects it — no
validation step prevents it from becoming the displayed result. -/
theorem c1_session_result_unvalidated (evs : List Event) (r : GradingResult)
    (h : (run init evs).session.result = some r) :
    (∀ k, 0 ≤ pointsOf r k ∧ pointsOf r k ≤ maxPointsOf k) ∧
    r.totalScore ≠ sumPoints r ∧ specValidate r = false := by
  have hr := run_result_inv evs init (by intro r h0; simp [init] at h0) r h
  subst hr
  exact ⟨fun k => by cases k <;> exact ⟨by decide, by decide⟩, by decide, by decide⟩

/-- C1 witness: a concrete grading trace reaching the hard-coded result. -/
theorem c1_witness :
    (run init [.setText "Lalka Prusa", .handleGradeSync, .gradeResponse]).session.result
      = some simulatedResult ∧
    ((∀ k, 0 ≤ pointsOf simulatedResult k ∧ pointsOf simulatedResult k ≤ maxPointsOf k) ∧
     simulatedResult.totalScore ≠ sumPoints simulatedResult ∧
     specValidate simulatedResult = false) :=
  ⟨rfl, c1_session_result_unvalidated [.setText "Lalka Prusa", .handleGradeSync, .gradeResponse]
      simulatedResult rfl⟩

/-- C2 (corrected), counterexample: with the first request outstanding
(`isGrading = true`), a second submit is not rejected — it dispatches a
second request, so two immediate submits dispatch two requests, not one. -/
theorem c2_counterexample :
    (run init [.setText "Rozprawka o Lalce", .handleGradeSync]).session.isGrading = true ∧
    (run init [.setText "Rozprawka o Lalce", .handleGradeSync, .handleGradeSync]).dispatched = 2 ∧
    (run init [.setText "Rozprawka o Lalce", .handleGradeSync, .handleGradeSync]).pending
      = ["Rozprawka o Lalce", "Rozprawka o Lalce"] :=
  ⟨rfl, rfl, rfl⟩

/-- C2 (amended): the submit handler has no single-flight guard and no
`AlreadyGradingError` exists: whenever the trimmed text is non-empty, a
submit enters the grading state and a second immediate submit dispatches a
second request, so two submits in immediate succession dispatch exactly
two requests. -/
theorem c2_no_single_flight_guard (m : Model) (h : jsTrim m.session.text ≠ "") :
    (step m .handleGradeSync).session.isGrading = true ∧
    (step (step m .handleGradeSync) .handleGradeSync).dispatched = m.dispatched + 2 := by
  constructor
  · simp [step, h]
  · simp [step, h]

/-- C2 witness: the double-submit dispatch count at a concrete state. -/
theorem c2_witness :
    jsTrim (run init [.setText "Dwa zgłoszenia"]).session.text ≠ "" ∧
    ((step (run init [.setText "Dwa zgłoszenia"]) .handleGradeSync).session.isGrading = true ∧
     (step (step (run init [.setText "Dwa zgłoszenia"]) .handleGradeSync) .handleGradeSync).dispatched
       = (run init [.setText "Dwa zgłoszenia"]).dispatched + 2) :=
  ⟨by decide, c2_no_single_flight_guard (run init [.setText "Dwa zgłoszenia"]) (by decide)⟩

/-- C3 (corrected), counterexample: resetting while a request is in flight
clears the result, but the late-arriving response is then applied anyway
and sets the reset session's result to the hard-coded grade. -/
theorem c3_counterexample :
    (run init [.setText "Stara praca", .handleGradeSync, .handleReset]).session.result = none ∧
    (run init [.setText "Stara praca", .handleGradeSync, .handleReset]).session.text = "" ∧
    (run init [.setText "Stara praca", .handleGradeSync, .handleReset, .gradeResponse]).session.result
      = some simulatedResult :=
  ⟨rfl, rfl, rfl⟩

/-- C3 (amended): responses carry no request id and no staleness check
exists: whenever a request is outstanding, the arriving response is applied
unconditionally — it sets the session's result to the grade of the oldest
outstanding snapshot (and clears the grading flag) even if the session was
reset in the meantime. -/
theorem c3_response_applied_unconditionally (m : Model) (t : String) (rest : List String)
    (h : m.pending = t :: rest) :
    (step m .gradeResponse).session.result = some (simulatedGrade t) ∧
    (step m .gradeResponse).session.isGrading = false ∧
    (step m .gradeResponse).pending = rest := by
  rw [step, h]
  exact ⟨rfl, rfl, rfl⟩

/-- C3 witness: the late response applied after a reset. -/
theorem c3_witness :
    (run init [.setText "Esej o Lalce", .handleGradeSync, .handleReset]).pending = ["Esej o Lalce"] ∧
    ((step (run init [.setText "Esej o Lalce", .handleGradeSync, .handleReset]) .gradeResponse).session.result
       = some (simulatedGrade "Esej o Lalce") ∧
     (step (run init [.setText "Esej o Lalce", .handleGradeSync, .handleReset]) .gradeResponse).session.isGrading
       = false ∧
     (step (run init [.setText "Esej o Lalce", .handleGradeSync, .handleReset]) .gradeResponse).pending
       = []) :=
  ⟨rfl, c3_response_applied_unconditionally
      (run init [.setText "Esej o Lalce", .handleGradeSync, .handleReset]) "Esej o Lalce" [] rfl⟩

/-- C4 (corrected), counterexample: editing the document while a result is
displayed replaces the text but leaves the stale result in place — the
edited document is shown next to its prior grade. -/
theorem c4_counterexample :
    (run init [.setText "Pierwsza wersja", .handleGradeSync, .gradeResponse]).session.result
      = some simulatedResult ∧
    (run init [.setText "Pierwsza wersja", .handleGradeSync, .gradeResponse,
               .setText "Zmieniona wersja"]).session.result = some simulatedResult ∧
    (run init [.setText "Pierwsza wersja", .handleGradeSync, .gradeResponse,
               .setText "Zmieniona wersja"]).session.text = "Zmieniona wersja" :=
  ⟨rfl, rfl, rfl⟩

/-- C4 (amended): `setText` never discards a result: it replaces the
document text and leaves the session's result (and every other session
field) unchanged, so a displayed result stays visible next to edited text. -/
theorem c4_setText_keeps_result (m : Model) (s : String) :
    (step m (.setText s)).session.result = m.session.result ∧
    (step m (.setText s)).session.text = s := ⟨rfl, rfl⟩

/-- C5 (corrected), counterexample: with a grading request outstanding
(`isGrading = true`), `setText` is applied and changes the document text. -/
theorem c5_counterexample :
    (run init [.setText "Tekst A", .handleGradeSync]).session.isGrading = true ∧
    (run init [.setText "Tekst A", .handleGradeSync, .setText "Tekst B"]).session.text = "Tekst B" ∧
    (run init [.setText "Tekst A", .handleGradeSync, .setText "Tekst B"]).session.isGrading = true :=
  ⟨rfl, rfl, rfl⟩

/-- C5 (amended): the text is not frozen during flight: in the grading
state every `setText` is applied — the document text is replaced while the
request stays outstanding, so the graded snapshot and the displayed text
can diverge. -/
theorem c5_setText_during_flight_applied (m : Model) (s : String)
    (h : m.session.isGrading = true) :
    (step m (.setText s)).session.text = s ∧
    (step m (.setText s)).session.isGrading = true := ⟨rfl, h⟩

/-- C5 witness: an edit applied mid-flight at a concrete state. -/
theorem c5_witness :
    (run init [.setText "W trakcie oceniania", .handleGradeSync]).session.isGrading = true ∧
    ((step (run init [.setText "W trakcie oceniania", .handleGradeSync])
        (.setText "Nowy tekst")).session.text = "Nowy tekst" ∧
     (step (run init [.setText "W trakcie oceniania", .handleGradeSync])
        (.setText "Nowy tekst")).session.isGrading = true) :=
  ⟨rfl, c5_setText_during_flight_applied
      (run init [.setText "W trakcie oceniania", .handleGradeSync]) "Nowy tekst" rfl⟩

/-- C6 (corrected), counterexample: the `maxTotalScore` of the result that
enters the session is the hard-coded 50, while the sum of the per-kind
`maxPoints` table is 35. -/
theorem c6_counterexample :
    (run init [.setText "Praca o Lalce", .handleGradeSync, .gradeResponse]).session.result
      = some simulatedResult ∧
    simulatedResult.maxTotalScore = 50 ∧ maxTotalSpec = 35 :=
  ⟨rfl, by decide, by decide⟩

/-- C6 (amended): `maxTotalScore` of every RubricResult that enters the
session is the hard-coded constant 50; it is not computed from the
per-kind `maxPoints` table, whose sum is 35. -/
theorem c6_maxTotalScore_hardcoded (evs : List Event) (r : GradingResult)
    (h : (run init evs).session.result = some r) :
    r.maxTotalScore = 50 ∧ maxTotalSpec = 35 ∧ r.maxTotalScore ≠ maxTotalSpec := by
  have hr := run_result_inv evs init (by intro r h0; simp [init] at h0) r h
  subst hr
  exact ⟨by decide, by decide, by decide⟩

/-- C6 witness: a concrete grading trace showing the hard-coded 50. -/
theorem c6_witness :
    (run init [.setText "Motyw pracy u Prusa", .handleGradeSync, .gradeResponse]).session.result
      = some simulatedResult ∧
    (simulatedResult.maxTotalScore = 50 ∧ maxTotalSpec = 35 ∧
     simulatedResult.maxTotalScore ≠ maxTotalSpec) :=
  ⟨rfl, c6_maxTotalScore_hardcoded
      [.setText "Motyw pracy u Prusa", .handleGradeSync, .gradeResponse] simulatedResult rfl⟩

/-- C7 (confirmed): submitting with blank or whitespace-only text is
rejected by the `!text.trim()` guard: the model — session state, document,
result, outstanding requests and dispatch count — is left exactly
unchanged, so nothing is dispatched. -/
theorem c7_blank_submit_no_change (m : Model) (h : jsTrim m.session.text = "") :
    step m .handleGradeSync = m := by
  simp [step, h]

/-- C7 witness: submitting the writing-mode placeholder `" "` changes nothing. -/
theorem c7_witness :
    jsTrim (run init [.enterWritingMode]).session.text = "" ∧
    step (run init [.enterWritingMode]) .handleGradeSync = run init [.enterWritingMode] :=
  ⟨by decide, c7_blank_submit_no_change (run init [.enterWritingMode]) (by decide)⟩

/-- C8 (confirmed): whenever a submit passes the blank-text guard, the
session reaches the grading state with `isWritingMode = false`, whatever
the mode was before — the overlay never remains active once grading starts. -/
theorem c8_submit_forces_writing_mode_off (m : Model) (h : jsTrim m.session.text ≠ "") :
    (step m .handleGradeSync).session.isWritingMode = false ∧
    (step m .handleGradeSync).session.isGrading = true := by
  constructor <;> simp [step, h]

/-- C8 witness: entering writing mode and immediately submitting. -/
theorem c8_witness :
    (run init [.setText "Moja rozprawka", .enterWritingMode]).session.isWritingMode = true ∧
    jsTrim (run init [.setText "Moja rozprawka", .enterWritingMode]).session.text ≠ "" ∧
    ((step (run init [.setText "Moja rozprawka", .enterWritingMode]) .handleGradeSync).session.isWritingMode
       = false ∧
     (step (run init [.setText "Moja rozprawka", .enterWritingMode]) .handleGradeSync).session.isGrading
       = true) :=
  ⟨rfl, by decide,
    c8_submit_forces_writing_mode_off (run init [.setText "Moja rozprawka", .enterWritingMode])
      (by decide)⟩

/-- C9 (confirmed): the displayed word count —
`text.split(/\s+/).filter(w => w.length > 0).length` — equals the number
of maximal non-whitespace runs of the text for every string; in particular
it is 0 on the empty string and 0 on `"   "`, so the writing-mode
placeholder of a single space counts as zero words. -/
theorem c9_word_count_counts_runs :
    (∀ s : String, wordCount s = runCount s) ∧
    wordCount "" = 0 ∧ wordCount "   " = 0 ∧ wordCount " " = 0 := by
  have key : ∀ s : String, wordCount s = runCount s := by
    intro s
    have h := splitWsAux_filter_length s.data.length s.data (le_refl _) []
    simpa [wordCount, runCount] using h
  exact ⟨key, (key "").trans (by decide), (key "   ").trans (by decide),
    (key " ").trans (by decide)⟩

/-- C10 (confirmed): the grading outcome carries no information about the
essay: the simulated grade is the same fixed result for every snapshot,
so submitting any two non-blank texts stores identical results. -/
theorem c10_grade_independent_of_text (t1 t2 : String)
    (h1 : jsTrim t1 ≠ "") (h2 : jsTrim t2 ≠ "") :
    simulatedGrade t1 = simulatedGrade t2 ∧
    (run init [.setText t1, .handleGradeSync, .gradeResponse]).session.result
      = (run init [.setText t2, .handleGradeSync, .gradeResponse]).session.result ∧
    (run init [.setText t1, .handleGradeSync, .gradeResponse]).session.result
      = some simulatedResult := by
  refine ⟨rfl, ?_, ?_⟩ <;> simp [run, step, init, h1, h2, simulatedGrade]

/-- C10 witness: two different essays, the same stored grade. -/
theorem c10_witness :
    jsTrim "Pierwszy esej" ≠ "" ∧ jsTrim "Drugi, zupełnie inny esej" ≠ "" ∧
    (simulatedGrade "Pierwszy esej" = simulatedGrade "Drugi, zupełnie inny esej" ∧
     (run init [.setText "Pierwszy esej", .handleGradeSync, .gradeResponse]).session.result
       = (run init [.setText "Drugi, zupełnie inny esej", .handleGradeSync, .gradeResponse]).session.result ∧
     (run init [.setText "Pierwszy esej", .handleGradeSync, .gradeResponse]).session.result
       = some simulatedResult) :=
  ⟨by decide, by decide,
    c10_grade_independent_of_text "Pierwszy esej" "Drugi, zupełnie inny esej"
      (by decide) (by decide)⟩

end MaturaGrade
